import Mathlib

set_option linter.unusedVariables false

/-!
Shallow embedding of the enigma-forense backend: the VpnDetectionService
(verdict cache plus Express gate) and the server file (its own checkVpn
gate, the HTTP counter handlers, and the socket.io realtime handlers).
Date.now(), the axios provider call, Math.random draws and uuid draws are
passed in as explicit arguments; external-store writes that no property
observes are noted in the doc comments.
-/

namespace Enigma

/-- Verdict object built by VpnDetectionService.checkIp. The API and the
simulation branches fill fraudScore, country and isp; the disabled and the
fail-open branches return an object with only the four booleans, so the
extra fields are options. -/
structure IpResult where
  isVpn : Bool
  proxy : Bool
  vpn : Bool
  tor : Bool
  fraudScore : Option Int := none
  country : Option String := none
  isp : Option String := none
  deriving DecidableEq, Repr

/-- Fields of the IPQualityScore response body read by checkIp. -/
structure ProviderData where
  proxy : Bool
  vpn : Bool
  tor : Bool
  fraud_score : Int
  country_code : String
  ISP : String
  deriving DecidableEq, Repr

/-- One entry of the service cache Map: insertion time and stored verdict. -/
structure CacheEntry where
  timestamp : Int
  data : IpResult
  deriving DecidableEq, Repr

/-- The service cache, a Map keyed by the ip string. -/
abbrev Cache := List (String × CacheEntry)

/-- Map.get combined with Map.has: the stored entry for ip, if any. -/
def cacheGet : Cache → String → Option CacheEntry
  | [], _ => none
  | kv :: rest, ip => if kv.1 == ip then some kv.2 else cacheGet rest ip

/-- Map.delete: drop every binding of ip. -/
def cacheDelete : Cache → String → Cache
  | [], _ => []
  | kv :: rest, ip => if kv.1 == ip then cacheDelete rest ip else kv :: cacheDelete rest ip

/-- Map.set: bind ip to e, replacing any previous binding. -/
def cacheSet (c : Cache) (ip : String) (e : CacheEntry) : Cache :=
  (ip, e) :: cacheDelete c ip

/-- The guard of the API branch: this.apiKey is truthy and differs from the
placeholder value. -/
def hasRealApiKey : Option String → Bool
  | some k => k != "" && k != "your_api_key_here"
  | none => false

/-- Verdict returned when detection is disabled or the provider call threw. -/
def failOpenResult : IpResult :=
  { isVpn := false, proxy := false, vpn := false, tor := false }

/-- Verdict built from a successful IPQualityScore response. -/
def resultOfProvider (d : ProviderData) : IpResult :=
  { isVpn := d.proxy || d.vpn || d.tor
    proxy := d.proxy
    vpn := d.vpn
    tor := d.tor
    fraudScore := some d.fraud_score
    country := some d.country_code
    isp := some d.ISP }

/-- Outcome of one checkIp call: the returned verdict, the cache after the
call, and whether the external provider was invoked. The last field is
observational instrumentation for the at-most-once properties, not a field
of the source object. -/
structure CheckIpOutcome where
  result : IpResult
  cache : Cache
  providerCalled : Bool
  deriving DecidableEq, Repr

/-- The try block of checkIp, reached on cache miss or after an expired
entry was deleted. provider is the axios call: ok is a parsed response,
error is a throw (timeout, malformed response, quota); the catch returns
the fail-open verdict and stores nothing. sim is the verdict the
development branch builds from its Math.random draws. -/
def checkIpFresh (apiKey : Option String) (c : Cache) (now : Int)
    (provider : Except Unit ProviderData) (sim : IpResult) (ip : String) : CheckIpOutcome :=
  if hasRealApiKey apiKey then
    match provider with
    | Except.ok d =>
        let result := resultOfProvider d
        ⟨result, cacheSet c ip ⟨now, result⟩, true⟩
    | Except.error _ => ⟨failOpenResult, c, true⟩
  else
    ⟨sim, cacheSet c ip ⟨now, sim⟩, false⟩

/-- VpnDetectionService.checkIp. Date.now() is the now argument; the cache
expiry test is Date.now() minus timestamp below cacheExpiration, with the
expired entry deleted before the fresh lookup. -/
def checkIp (enabled : Bool) (apiKey : Option String) (cacheExpiration : Int)
    (cache : Cache) (now : Int) (provider : Except Unit ProviderData)
    (sim : IpResult) (ip : String) : CheckIpOutcome :=
  if !enabled then ⟨failOpenResult, cache, false⟩
  else
    match cacheGet cache ip with
    | some entry =>
        if now - entry.timestamp < cacheExpiration then ⟨entry.data, cache, false⟩
        else checkIpFresh apiKey (cacheDelete cache ip) now provider sim ip
    | none => checkIpFresh apiKey cache now provider sim ip

/-- True when the cache holds a servable, unexpired entry for ip. -/
def hasValidEntry (cache : Cache) (ip : String) (now cacheExpiration : Int) : Bool :=
  match cacheGet cache ip with
  | some e => decide (now - e.timestamp < cacheExpiration)
  | none => false

/-- Number of provider invocations made by one checkIp call. -/
def callCount (o : CheckIpOutcome) : Nat := if o.providerCalled then 1 else 0

/-- The request fields the two gates read. -/
structure Request where
  xForwardedFor : Option String := none
  xRealIp : Option String := none
  remoteAddress : Option String := none
  deriving DecidableEq, Repr

/-- JavaScript a || b over possibly-missing header strings: undefined and
the empty string are falsy. -/
def jsOrStr : Option String → Option String → Option String
  | some s, b => if s == "" then b else some s
  | none, b => b

/-- The ip expression of VpnDetectionService.middleware: x-forwarded-for,
else x-real-ip, else connection.remoteAddress. -/
def reqIp (r : Request) : Option String :=
  jsOrStr (jsOrStr r.xForwardedFor r.xRealIp) r.remoteAddress

/-- String startsWith over the character data, matching the source tests on
these ASCII addresses. -/
def beginsWith (s p : String) : Bool :=
  s.data.take p.data.length == p.data

/-- cleanIp: ip.replace of one leading IPv6-mapped marker by nothing. -/
def cleanIpOf (ip : String) : String :=
  if beginsWith ip "::ffff:" then String.mk (ip.data.drop 7) else ip

/-- The local-address test of the middleware. -/
def isLocalIp (ip : String) : Bool :=
  ip == "127.0.0.1" || ip == "localhost" || beginsWith ip "192.168." || beginsWith ip "10."

/-- The details object of the middleware rejection body. -/
structure RejectDetails where
  proxy : Bool
  vpn : Bool
  tor : Bool
  deriving DecidableEq, Repr

/-- JSON body of a 403 rejection. message and details are absent from the
body built by the checkVpn gate of the server file, so they are options. -/
structure RejectBody where
  error : String
  message : Option String := none
  details : Option RejectDetails := none
  deriving DecidableEq, Repr

/-- What a gate does with a request: pass it on via next(), or answer with
a status and body. -/
inductive MwOutcome where
  | next
  | reject (status : Nat) (body : RejectBody)
  deriving DecidableEq, Repr

/-- The details field of a rejection, when the outcome is a rejection. -/
def rejectionDetails : MwOutcome → Option RejectDetails
  | MwOutcome.reject _ b => b.details
  | MwOutcome.next => none

/-- The message field of a rejection, when the outcome is a rejection. -/
def rejectionMessage : MwOutcome → Option String
  | MwOutcome.reject _ b => b.message
  | MwOutcome.next => none

/-- Result of one middleware run: the outcome, the service cache after the
run, and whether the external provider was invoked. -/
structure GateResult where
  outcome : MwOutcome
  cache : Cache
  providerCalled : Bool
  deriving DecidableEq, Repr

/-- The message string of the middleware rejection body. -/
def blockMessage : String :=
  "VPN, proxy ou Tor detectado. Por razões de segurança, o acesso ao sistema de enigmas forenses não é permitido através dessas redes."

/-- Body of the async handler inside VpnDetectionService.middleware, before
its catch. The error value models the TypeError thrown by ip.replace when
the request carries no usable address into the normalization step. -/
def middlewareBody (enabled : Bool) (apiKey : Option String) (cacheExpiration : Int)
    (cache : Cache) (now : Int) (provider : Except Unit ProviderData)
    (sim : IpResult) (req : Request) : Except Unit GateResult :=
  match reqIp req with
  | none => Except.error ()
  | some ip =>
      let cleanIp := cleanIpOf ip
      if isLocalIp cleanIp then Except.ok ⟨MwOutcome.next, cache, false⟩
      else
        let o := checkIp enabled apiKey cacheExpiration cache now provider sim cleanIp
        if o.result.isVpn then
          Except.ok ⟨MwOutcome.reject 403
            { error := "Acesso bloqueado"
              message := some blockMessage
              details := some ⟨o.result.proxy, o.result.vpn, o.result.tor⟩ },
            o.cache, o.providerCalled⟩
        else Except.ok ⟨MwOutcome.next, o.cache, o.providerCalled⟩

/-- VpnDetectionService.middleware: its body under try/catch; the catch
logs, calls next() and leaves the cache untouched. -/
def middleware (enabled : Bool) (apiKey : Option String) (cacheExpiration : Int)
    (cache : Cache) (now : Int) (provider : Except Unit ProviderData)
    (sim : IpResult) (req : Request) : GateResult :=
  match middlewareBody enabled apiKey cacheExpiration cache now provider sim req with
  | Except.ok r => r
  | Except.error _ => ⟨MwOutcome.next, cache, false⟩

/-- checkVpn of the server file, the gate mounted on the HTTP endpoints:
it computes the client ip but never inspects it, and rejects exactly when
the simulated draw, Math.random() below five percent, flags a VPN. -/
def checkVpn (isVpnDraw : Bool) (req : Request) : MwOutcome :=
  if isVpnDraw then
    MwOutcome.reject 403 { error := "VPN ou Tor detectado. Acesso bloqueado." }
  else MwOutcome.next

/-- The difficulty computation inlined both in the solve-enigma HTTP
handler and in the enigma_solved socket handler: start at 1, raise to 3 at
one thousand solves, else to 2 at one hundred. -/
def tierFor (solvedCount : Nat) : Nat :=
  if solvedCount ≥ 1000 then 3
  else if solvedCount ≥ 100 then 2
  else 1

/-- The stats record the HTTP handlers keep in the backing store. -/
structure Stats where
  activeUsers : Nat
  activatedEnigmas : Nat
  solvedEnigmas : Nat
  deriving DecidableEq, Repr

/-- Response bodies of the counter endpoints used by the claims. -/
inductive RespBody where
  | userNotFound
  | activateSuccess
  | solveSuccess (newDifficulty : Nat)
  deriving DecidableEq, Repr

/-- One io.emit broadcast, delivered to every connected session. -/
inductive Emit where
  | stats_update (activeUsers : Int) (activatedEnigmas solvedEnigmas : Nat)
  | difficulty_change (level : Nat)
  deriving DecidableEq, Repr

/-- Outcome of one HTTP handler: response status and body, the stats record
after the call, and the io.emit broadcasts issued by the handler. -/
structure HttpOutcome where
  status : Nat
  body : RespBody
  stats : Stats
  emits : List Emit
  deriving DecidableEq, Repr

/-- POST /api/solve-enigma. users is the set of registered user ids in the
store; the per-user enigmaSolved and solutionTime fields written to the
store are not observed by any property and are left out. The handler never
calls io.emit. -/
def solveEnigmaHttp (users : List String) (stats : Stats) (userId : String)
    (level : Nat) : HttpOutcome :=
  if users.contains userId then
    let stats' : Stats := { stats with solvedEnigmas := stats.solvedEnigmas + 1 }
    { status := 200, body := RespBody.solveSuccess (tierFor stats'.solvedEnigmas)
      stats := stats', emits := [] }
  else
    { status := 404, body := RespBody.userNotFound, stats := stats, emits := [] }

/-- POST /api/activate-enigma: 404 for an unknown user, else increments the
activated counter. The handler never calls io.emit. -/
def activateEnigmaHttp (users : List String) (stats : Stats) (userId : String) : HttpOutcome :=
  if users.contains userId then
    { status := 200, body := RespBody.activateSuccess
      stats := { stats with activatedEnigmas := stats.activatedEnigmas + 1 }, emits := [] }
  else
    { status := 404, body := RespBody.userNotFound, stats := stats, emits := [] }

/-- A stored user record of the register-user endpoint. -/
structure UserRec where
  id : String
  fingerprint : String
  deriving DecidableEq, Repr

/-- Outcome of the register-user endpoint. -/
structure RegisterOutcome where
  status : Nat
  userId : String
  isNew : Bool
  users : List UserRec
  stats : Stats
  emits : List Emit
  deriving DecidableEq, Repr

/-- POST /api/register-user: an already-known fingerprint returns the
existing id, a fresh one stores a record under the uuid draw newId and
increments activeUsers. The handler never calls io.emit. -/
def registerUserHttp (users : List UserRec) (stats : Stats) (fp : String)
    (newId : String) : RegisterOutcome :=
  match users.find? (fun u => u.fingerprint == fp) with
  | some u => ⟨200, u.id, false, users, stats, []⟩
  | none =>
      ⟨200, newId, true, users ++ [⟨newId, fp⟩],
        { stats with activeUsers := stats.activeUsers + 1 }, []⟩

/-- The in-memory counters of the server file. activeUsers is an integer so
that the Math.max floor of the disconnect handler is a real clamp. -/
structure ServerState where
  activeUsers : Int
  activatedEnigmas : Nat
  solvedEnigmas : Nat
  deriving DecidableEq, Repr

/-- The stats_update payload broadcast after a mutation. -/
def snapshotOf (s : ServerState) : Emit :=
  Emit.stats_update s.activeUsers s.activatedEnigmas s.solvedEnigmas

/-- The io.on connection handler: increment activeUsers, broadcast. -/
def onConnection (s : ServerState) : ServerState × List Emit :=
  let s' : ServerState := { s with activeUsers := s.activeUsers + 1 }
  (s', [snapshotOf s'])

/-- The disconnect handler: activeUsers becomes Math.max of 0 and its
predecessor, then broadcast. -/
def onDisconnect (s : ServerState) : ServerState × List Emit :=
  let s' : ServerState := { s with activeUsers := max 0 (s.activeUsers - 1) }
  (s', [snapshotOf s'])

/-- The enigma_activated handler: increment, broadcast. The statsRef
update of the external store is not observed by any property. -/
def onEnigmaActivated (s : ServerState) : ServerState × List Emit :=
  let s' : ServerState := { s with activatedEnigmas := s.activatedEnigmas + 1 }
  (s', [snapshotOf s'])

/-- The enigma_solved handler: increment, broadcast the snapshot, recompute
the difficulty from the new count, and broadcast difficulty_change exactly
when the recomputed difficulty exceeds 1. The statsRef update of the
external store is not observed by any property. -/
def onEnigmaSolved (s : ServerState) : ServerState × List Emit :=
  let s' : ServerState := { s with solvedEnigmas := s.solvedEnigmas + 1 }
  let newDifficulty := tierFor s'.solvedEnigmas
  if newDifficulty > 1 then
    (s', [snapshotOf s', Emit.difficulty_change newDifficulty])
  else (s', [snapshotOf s'])

/-- One session-counter event: a socket connection or a disconnect. -/
inductive SessionOp where
  | register
  | endS
  deriving DecidableEq, Repr

/-- Effect of one connect or disconnect callback on activeUsers. -/
def applyOp (a : Int) : SessionOp → Int
  | SessionOp.register => a + 1
  | SessionOp.endS => max 0 (a - 1)

/-- activeUsers after a sequence of connect and disconnect callbacks. -/
def runOps (a : Int) : List SessionOp → Int
  | [] => a
  | op :: rest => runOps (applyOp a op) rest

/-- Number of registrations in a sequence of session events. -/
def countReg : List SessionOp → Nat
  | [] => 0
  | SessionOp.register :: rest => countReg rest + 1
  | SessionOp.endS :: rest => countReg rest

/-- Number of endings in a sequence of session events. -/
def countEnd : List SessionOp → Nat
  | [] => 0
  | SessionOp.register :: rest => countEnd rest
  | SessionOp.endS :: rest => countEnd rest + 1

/-- A request from loopback, as delivered by a local client. -/
def req127 : Request := { remoteAddress := some "127.0.0.1" }

/-- A request from a private LAN address behind the IPv6-mapped marker. -/
def reqLan : Request := { remoteAddress := some "::ffff:192.168.0.7" }

/-- A request from a public test address. -/
def reqPub : Request := { remoteAddress := some "203.0.113.9" }

/-- A concrete clean provider response for witnesses. -/
def pd0 : ProviderData := ⟨false, false, false, 0, "US", "Simulated ISP"⟩

/-- A concrete suspicious verdict for witnesses. -/
def vpnResult : IpResult := { isVpn := true, proxy := true, vpn := true, tor := false }

/-- A concrete cache entry for witnesses. -/
def hitEntry : CacheEntry := ⟨0, failOpenResult⟩

/-- Reading back a binding just stored by Map.set. -/
theorem cacheGet_cacheSet_same (c : Cache) (ip : String) (e : CacheEntry) :
    cacheGet (cacheSet c ip e) ip = some e := by
  simp [cacheSet, cacheGet]

/-- Map.delete leaves no binding for the deleted key. -/
theorem cacheGet_cacheDelete_same (c : Cache) (ip : String) :
    cacheGet (cacheDelete c ip) ip = none := by
  induction c with
  | nil => rfl
  | cons kv rest ih =>
      by_cases h : kv.1 == ip
      · simpa [cacheDelete, h] using ih
      · simp [cacheDelete, h, cacheGet, ih]

/-- A servable cache hit is returned as is: no provider call, no cache
change. -/
theorem checkIp_hit (apiKey : Option String) (exp : Int) (cache : Cache) (now : Int)
    (p : Except Unit ProviderData) (sim : IpResult) (ip : String) (e : CacheEntry)
    (hget : cacheGet cache ip = some e) (hv : now - e.timestamp < exp) :
    checkIp true apiKey exp cache now p sim ip = ⟨e.data, cache, false⟩ := by
  simp [checkIp, hget, hv]

/-- With no cache binding and a real api key, checkIp invokes the provider
whatever the provider then does. -/
theorem checkIp_none_key_called (apiKey : Option String) (exp : Int) (c : Cache) (t : Int)
    (p : Except Unit ProviderData) (sim : IpResult) (ip : String)
    (hget : cacheGet c ip = none) (hkey : hasRealApiKey apiKey = true) :
    (checkIp true apiKey exp c t p sim ip).providerCalled = true := by
  cases p <;> simp [checkIp, hget, checkIpFresh, hkey]

/-- When a checkIp call with a successful provider response did invoke the
provider, the response verdict is cached under the call time. -/
theorem checkIp_called_ok_cache (apiKey : Option String) (exp : Int) (c : Cache) (t : Int)
    (d : ProviderData) (sim : IpResult) (ip : String)
    (h : (checkIp true apiKey exp c t (Except.ok d) sim ip).providerCalled = true) :
    cacheGet (checkIp true apiKey exp c t (Except.ok d) sim ip).cache ip
      = some ⟨t, resultOfProvider d⟩ := by
  cases hk : hasRealApiKey apiKey with
  | true =>
      cases hg : cacheGet c ip with
      | none => simp [checkIp, hg, checkIpFresh, hk, cacheGet_cacheSet_same]
      | some e =>
          by_cases hv : t - e.timestamp < exp
          · simp [checkIp, hg, hv] at h
          · simp [checkIp, hg, hv, checkIpFresh, hk, cacheGet_cacheSet_same]
  | false =>
      exfalso
      cases hg : cacheGet c ip with
      | none => simp [checkIp, hg, checkIpFresh, hk] at h
      | some e =>
          by_cases hv : t - e.timestamp < exp
          · simp [checkIp, hg, hv] at h
          · simp [checkIp, hg, hv, checkIpFresh, hk] at h

/-- One call invokes the provider at most once. -/
theorem callCount_le_one (o : CheckIpOutcome) : callCount o ≤ 1 := by
  unfold callCount
  split <;> omega

/-- C1: tierFor, the difficulty computation shared by the solve-enigma HTTP
handler and the enigma_solved socket handler, matches the three threshold
bands of the spec for every non-negative solvedCount and never decreases as
solvedCount increases. -/
theorem c1_tier_thresholds_monotone :
    (∀ n : Nat, n < 100 → tierFor n = 1) ∧
    (∀ n : Nat, 100 ≤ n → n < 1000 → tierFor n = 2) ∧
    (∀ n : Nat, 1000 ≤ n → tierFor n = 3) ∧
    (∀ a b : Nat, a ≤ b → tierFor a ≤ tierFor b) := by
  refine ⟨?_, ?_, ?_, ?_⟩ <;> intros <;> unfold tierFor <;> split_ifs <;> omega

/-- Witness for C1 at the three band representatives and one monotone pair. -/
theorem c1_witness :
    tierFor 99 = 1 ∧ tierFor 100 = 2 ∧ tierFor 1000 = 3 ∧ tierFor 99 ≤ tierFor 100 :=
  ⟨c1_tier_thresholds_monotone.1 99 (by decide),
   c1_tier_thresholds_monotone.2.1 100 (by decide) (by decide),
   c1_tier_thresholds_monotone.2.2.1 1000 (by decide),
   c1_tier_thresholds_monotone.2.2.2 99 100 (by decide)⟩

/-- C5: with detection on, a real api key and no servable cache entry, a
provider failure makes checkIp return the fail-open verdict instead of
raising, leaves no cache entry for that address, and a later lookup for the
same address invokes the provider again. -/
theorem c5_provider_failure_fail_open
    (apiKey : Option String) (exp : Int) (cache : Cache) (now now' : Int)
    (sim sim' : IpResult) (p' : Except Unit ProviderData) (ip : String)
    (hkey : hasRealApiKey apiKey = true)
    (hmiss : hasValidEntry cache ip now exp = false) :
    (checkIp true apiKey exp cache now (Except.error ()) sim ip).result = failOpenResult ∧
    cacheGet (checkIp true apiKey exp cache now (Except.error ()) sim ip).cache ip = none ∧
    (checkIp true apiKey exp (checkIp true apiKey exp cache now (Except.error ()) sim ip).cache
        now' p' sim' ip).providerCalled = true := by
  cases hg : cacheGet cache ip with
  | none =>
      have h1 : checkIp true apiKey exp cache now (Except.error ()) sim ip
          = ⟨failOpenResult, cache, true⟩ := by
        simp [checkIp, hg, checkIpFresh, hkey]
      rw [h1]
      exact ⟨rfl, hg, checkIp_none_key_called apiKey exp cache now' p' sim' ip hg hkey⟩
  | some e =>
      have hv : ¬ (now - e.timestamp < exp) := by
        unfold hasValidEntry at hmiss
        rw [hg] at hmiss
        simpa using hmiss
      have h1 : checkIp true apiKey exp cache now (Except.error ()) sim ip
          = ⟨failOpenResult, cacheDelete cache ip, true⟩ := by
        simp [checkIp, hg, hv, checkIpFresh, hkey]
      rw [h1]
      refine ⟨rfl, cacheGet_cacheDelete_same cache ip, ?_⟩
      exact checkIp_none_key_called apiKey exp (cacheDelete cache ip) now' p' sim' ip
        (cacheGet_cacheDelete_same cache ip) hkey

/-- Witness for C5: a timed-out provider call for 203.0.113.5 yields the
fail-open verdict, an empty cache for that address, and a retry. -/
theorem c5_witness :
    (checkIp true (some "key123") 3600000 [] 0 (Except.error ()) failOpenResult
        "203.0.113.5").result = failOpenResult ∧
    cacheGet (checkIp true (some "key123") 3600000 [] 0 (Except.error ()) failOpenResult
        "203.0.113.5").cache "203.0.113.5" = none ∧
    (checkIp true (some "key123") 3600000
        (checkIp true (some "key123") 3600000 [] 0 (Except.error ()) failOpenResult
          "203.0.113.5").cache 1 (Except.ok pd0) failOpenResult
        "203.0.113.5").providerCalled = true :=
  c5_provider_failure_fail_open (some "key123") 3600000 [] 0 1 failOpenResult failOpenResult
    (Except.ok pd0) "203.0.113.5" (by decide) (by decide)

/-- C6: a cache hit with now before the expiry returns the cached verdict
with no provider call and no cache change, and two lookups for the same
address within the TTL, the provider answering, invoke it at most once. -/
theorem c6_cache_hit_ttl :
    (∀ (apiKey : Option String) (exp : Int) (cache : Cache) (now : Int)
        (p : Except Unit ProviderData) (sim : IpResult) (ip : String) (e : CacheEntry),
       cacheGet cache ip = some e → now - e.timestamp < exp →
       checkIp true apiKey exp cache now p sim ip = ⟨e.data, cache, false⟩) ∧
    (∀ (apiKey : Option String) (exp : Int) (cache : Cache) (t0 t1 : Int)
        (d : ProviderData) (p2 : Except Unit ProviderData) (sim sim2 : IpResult) (ip : String),
       t1 - t0 < exp →
       callCount (checkIp true apiKey exp cache t0 (Except.ok d) sim ip) +
         callCount (checkIp true apiKey exp
           (checkIp true apiKey exp cache t0 (Except.ok d) sim ip).cache t1 p2 sim2 ip) ≤ 1) := by
  constructor
  · exact fun apiKey exp cache now p sim ip e hget hv =>
      checkIp_hit apiKey exp cache now p sim ip e hget hv
  · intro apiKey exp cache t0 t1 d p2 sim sim2 ip httl
    cases hpc : (checkIp true apiKey exp cache t0 (Except.ok d) sim ip).providerCalled with
    | false =>
        have h1 : callCount (checkIp true apiKey exp cache t0 (Except.ok d) sim ip) = 0 := by
          simp [callCount, hpc]
        rw [h1]
        simpa using callCount_le_one _
    | true =>
        have hcached := checkIp_called_ok_cache apiKey exp cache t0 d sim ip hpc
        have h2 := checkIp_hit apiKey exp
          (checkIp true apiKey exp cache t0 (Except.ok d) sim ip).cache t1 p2 sim2 ip
          ⟨t0, resultOfProvider d⟩ hcached (by simpa using httl)
        rw [h2]
        simp [callCount, hpc]

/-- Witness for C6: a hit on a warm cache, and one miss-then-hit pair
calling the provider once. -/
theorem c6_witness :
    checkIp true (some "key123") 3600000 [("198.51.100.7", hitEntry)] 10 (Except.ok pd0)
        failOpenResult "198.51.100.7"
      = ⟨failOpenResult, [("198.51.100.7", hitEntry)], false⟩ ∧
    callCount (checkIp true (some "key123") 3600000 [] 0 (Except.ok pd0) failOpenResult
        "198.51.100.7") +
      callCount (checkIp true (some "key123") 3600000
        (checkIp true (some "key123") 3600000 [] 0 (Except.ok pd0) failOpenResult
          "198.51.100.7").cache 5 (Except.error ()) failOpenResult "198.51.100.7") ≤ 1 :=
  ⟨c6_cache_hit_ttl.1 (some "key123") 3600000 [("198.51.100.7", hitEntry)] 10 (Except.ok pd0)
      failOpenResult "198.51.100.7" hitEntry (by decide) (by decide),
   c6_cache_hit_ttl.2 (some "key123") 3600000 [] 0 5 pd0 (Except.error ()) failOpenResult
      failOpenResult "198.51.100.7" (by decide)⟩

/-- C8: a solve-enigma request for an identity absent from the store
answers 404 with the not-found body and leaves the stats record, hence all
three counters, untouched. -/
theorem c8_unknown_identity (users : List String) (stats : Stats) (userId : String)
    (level : Nat) (h : users.contains userId = false) :
    solveEnigmaHttp users stats userId level
      = { status := 404, body := RespBody.userNotFound, stats := stats, emits := [] } := by
  have h' : userId ∉ users := by simpa using h
  simp [solveEnigmaHttp, h']

/-- Witness for C8: an unregistered id against a store that knows only u1. -/
theorem c8_witness :
    solveEnigmaHttp ["u1"] ⟨3, 2, 1⟩ "ghost" 1
      = { status := 404, body := RespBody.userNotFound, stats := ⟨3, 2, 1⟩, emits := [] } :=
  c8_unknown_identity ["u1"] ⟨3, 2, 1⟩ "ghost" 1 (by decide)

/-- C10: when the gate middleware body itself throws, here because the
request carries no usable address into ip.replace, the catch admits the
request via next() with the cache untouched, rather than rejecting or
propagating. -/
theorem c10_fail_open_internal_error
    (enabled : Bool) (apiKey : Option String) (exp : Int) (cache : Cache) (now : Int)
    (provider : Except Unit ProviderData) (sim : IpResult) (req : Request)
    (h : reqIp req = none) :
    middlewareBody enabled apiKey exp cache now provider sim req = Except.error () ∧
    middleware enabled apiKey exp cache now provider sim req
      = ⟨MwOutcome.next, cache, false⟩ := by
  have hb : middlewareBody enabled apiKey exp cache now provider sim req
      = Except.error () := by
    simp [middlewareBody, h]
  exact ⟨hb, by simp [middleware, hb]⟩

/-- Witness for C10: a request with no address headers and no remote
address is admitted. -/
theorem c10_witness :
    middleware true none 0 [] 0 (Except.error ()) failOpenResult ⟨none, none, none⟩
      = ⟨MwOutcome.next, [], false⟩ :=
  (c10_fail_open_internal_error true none 0 [] 0 (Except.error ()) failOpenResult
    ⟨none, none, none⟩ (by decide)).2

/-- C2 counterexample: the solve that moves solvedCount from 100 to 101
leaves the tier unchanged at 2, yet the enigma_solved handler still
broadcasts a difficulty-change notification, so the broadcast is not
conditioned on a tier change. -/
theorem c2_counterexample :
    tierFor 101 = tierFor 100 ∧
    Emit.difficulty_change 2 ∈ (onEnigmaSolved ⟨0, 0, 100⟩).2 := by decide

/-- C2 amended: the enigma_solved handler broadcasts a difficulty-change
notification iff the tier recomputed from the new count exceeds 1; in
particular the 99 to 100 solve broadcasts new tier 2, and a solve that
keeps solvedCount below 100 broadcasts no difficulty-change notification. -/
theorem c2_amended_difficulty_emit (s : ServerState) :
    ((∃ l, Emit.difficulty_change l ∈ (onEnigmaSolved s).2) ↔
       1 < tierFor (s.solvedEnigmas + 1)) ∧
    (s.solvedEnigmas = 99 →
       (onEnigmaSolved s).2
         = [Emit.stats_update s.activeUsers s.activatedEnigmas 100,
            Emit.difficulty_change 2]) ∧
    (s.solvedEnigmas + 1 < 100 →
       (onEnigmaSolved s).2
         = [Emit.stats_update s.activeUsers s.activatedEnigmas (s.solvedEnigmas + 1)]) := by
  refine ⟨?_, ?_, ?_⟩
  · by_cases h : 1 < tierFor (s.solvedEnigmas + 1)
    · simp [onEnigmaSolved, snapshotOf, h]
    · simp [onEnigmaSolved, snapshotOf, h]
  · intro h99
    have ht : tierFor 100 = 2 := by decide
    simp [onEnigmaSolved, snapshotOf, h99, ht]
  · intro hlt
    have ht : tierFor (s.solvedEnigmas + 1) = 1 := by unfold tierFor; split_ifs <;> omega
    simp [onEnigmaSolved, snapshotOf, ht]

/-- Witness for C2 amended at the boundary solve from 99 to 100. -/
theorem c2_witness :
    (onEnigmaSolved ⟨0, 0, 99⟩).2
      = [Emit.stats_update 0 0 100, Emit.difficulty_change 2] ∧
    (∃ l, Emit.difficulty_change l ∈ (onEnigmaSolved ⟨0, 0, 99⟩).2) :=
  ⟨(c2_amended_difficulty_emit ⟨0, 0, 99⟩).2.1 rfl,
   (c2_amended_difficulty_emit ⟨0, 0, 99⟩).1.mpr (by decide)⟩

/-- C3 counterexample: the solve-enigma HTTP handler mutates the solved
counter of the store and broadcasts nothing at all. -/
theorem c3_counterexample :
    (solveEnigmaHttp ["u1"] ⟨0, 0, 0⟩ "u1" 1).stats.solvedEnigmas = 1 ∧
    (solveEnigmaHttp ["u1"] ⟨0, 0, 0⟩ "u1" 1).emits = [] := by decide

/-- C3 amended: each socket-path mutation, connect, disconnect,
enigma_activated and enigma_solved, broadcasts the new snapshot to every
connected session, while the HTTP-path handlers register-user,
activate-enigma and solve-enigma mutate the store without broadcasting any
snapshot. -/
theorem c3_amended_broadcasts :
    (∀ s : ServerState, onConnection s
        = ({ s with activeUsers := s.activeUsers + 1 },
           [Emit.stats_update (s.activeUsers + 1) s.activatedEnigmas s.solvedEnigmas])) ∧
    (∀ s : ServerState, onDisconnect s
        = ({ s with activeUsers := max 0 (s.activeUsers - 1) },
           [Emit.stats_update (max 0 (s.activeUsers - 1)) s.activatedEnigmas s.solvedEnigmas])) ∧
    (∀ s : ServerState, onEnigmaActivated s
        = ({ s with activatedEnigmas := s.activatedEnigmas + 1 },
           [Emit.stats_update s.activeUsers (s.activatedEnigmas + 1) s.solvedEnigmas])) ∧
    (∀ s : ServerState, (onEnigmaSolved s).2.head?
        = some (Emit.stats_update s.activeUsers s.activatedEnigmas (s.solvedEnigmas + 1))) ∧
    (∀ (users : List String) (stats : Stats) (userId : String) (level : Nat),
       (solveEnigmaHttp users stats userId level).emits = []) ∧
    (∀ (users : List String) (stats : Stats) (userId : String),
       (activateEnigmaHttp users stats userId).emits = []) ∧
    (∀ (users : List UserRec) (stats : Stats) (fp newId : String),
       (registerUserHttp users stats fp newId).emits = []) := by
  refine ⟨fun s => rfl, fun s => rfl, fun s => rfl, ?_, ?_, ?_, ?_⟩
  · intro s
    by_cases h : 1 < tierFor (s.solvedEnigmas + 1)
    · simp [onEnigmaSolved, snapshotOf, h]
    · simp [onEnigmaSolved, snapshotOf, h]
  · intro users stats userId level
    unfold solveEnigmaHttp
    split <;> rfl
  · intro users stats userId
    unfold activateEnigmaHttp
    split <;> rfl
  · intro users stats fp newId
    cases hfind : users.find? (fun u => u.fingerprint == fp) <;>
      simp [registerUserHttp, hfind]

/-- C4 counterexample: the checkVpn gate, the one mounted on every gated
endpoint, rejects a loopback request whenever its simulated draw flags a
VPN, so a loopback address is not always admitted on the gated endpoints. -/
theorem c4_counterexample :
    checkVpn true req127
      = MwOutcome.reject 403 { error := "VPN ou Tor detectado. Acesso bloqueado." } ∧
    checkVpn true req127 ≠ MwOutcome.next := by decide

/-- C4 amended: VpnDetectionService.middleware admits every loopback or
private address, after stripping the IPv6-mapped marker, without touching
the cache or the provider; the checkVpn gate mounted on the HTTP endpoints
performs no such bypass and decides by its draw alone for every address. -/
theorem c4_amended_local_bypass :
    (∀ (enabled : Bool) (apiKey : Option String) (exp : Int) (cache : Cache) (now : Int)
        (provider : Except Unit ProviderData) (sim : IpResult) (req : Request) (ip : String),
       reqIp req = some ip → isLocalIp (cleanIpOf ip) = true →
       middleware enabled apiKey exp cache now provider sim req
         = ⟨MwOutcome.next, cache, false⟩) ∧
    (∀ req : Request, checkVpn false req = MwOutcome.next ∧
       checkVpn true req
         = MwOutcome.reject 403 { error := "VPN ou Tor detectado. Acesso bloqueado." }) := by
  constructor
  · intro enabled apiKey exp cache now provider sim req ip hip hlocal
    simp [middleware, middlewareBody, hip, hlocal]
  · intro req
    exact ⟨rfl, rfl⟩

/-- Witness for C4 amended: a LAN address behind the IPv6-mapped marker is
admitted with no cache or provider consult. -/
theorem c4_witness :
    middleware true none 0 [] 0 (Except.error ()) failOpenResult reqLan
      = ⟨MwOutcome.next, [], false⟩ ∧
    checkVpn false reqLan = MwOutcome.next :=
  ⟨c4_amended_local_bypass.1 true none 0 [] 0 (Except.error ()) failOpenResult reqLan
      "::ffff:192.168.0.7" (by decide) (by decide),
   (c4_amended_local_bypass.2 reqLan).1⟩

/-- C7 counterexample: after a double-disconnect, a later registration
makes activeUsers exceed registrations minus endings clamped at 0, so the
clamped-difference equality fails for that interleaving. -/
theorem c7_counterexample :
    runOps 0 [SessionOp.register, SessionOp.endS, SessionOp.endS, SessionOp.register] = 1 ∧
    max 0 ((countReg [SessionOp.register, SessionOp.endS, SessionOp.endS,
        SessionOp.register] : Int)
      - countEnd [SessionOp.register, SessionOp.endS, SessionOp.endS, SessionOp.register])
      = 0 ∧
    (1 : Int) ≠ 0 := by decide

/-- runOps distributes over appending event sequences. -/
theorem runOps_append (xs ys : List SessionOp) (a : Int) :
    runOps a (xs ++ ys) = runOps (runOps a xs) ys := by
  induction xs generalizing a with
  | nil => rfl
  | cons op rest ih => simp [runOps, ih]

/-- Each callback keeps activeUsers non-negative. -/
theorem runOps_nonneg (ops : List SessionOp) : ∀ a : Int, 0 ≤ a → 0 ≤ runOps a ops := by
  induction ops with
  | nil => intro a ha; simpa [runOps] using ha
  | cons op rest ih =>
      intro a ha
      cases op with
      | register => exact ih (a + 1) (by omega)
      | endS => exact ih (max 0 (a - 1)) (le_max_left _ _)

/-- When no prefix of the events drives the running count below the start,
running them is plain bookkeeping: start plus registrations minus endings. -/
theorem runOps_counts (ops : List SessionOp) : ∀ a : Int, 0 ≤ a →
    (∀ pre suf : List SessionOp, ops = pre ++ suf →
      (countEnd pre : Int) ≤ a + countReg pre) →
    runOps a ops = a + countReg ops - countEnd ops := by
  induction ops with
  | nil => intro a ha hpre; simp [runOps, countReg, countEnd]
  | cons op rest ih =>
      intro a ha hpre
      cases op with
      | register =>
          have hrest : ∀ pre suf : List SessionOp, rest = pre ++ suf →
              (countEnd pre : Int) ≤ (a + 1) + countReg pre := by
            intro pre suf hsplit
            have h := hpre (SessionOp.register :: pre) suf (by rw [hsplit]; rfl)
            simp [countEnd, countReg] at h
            omega
          have hrun := ih (a + 1) (by omega) hrest
          show runOps (a + 1) rest = _
          rw [hrun]
          simp only [countReg, countEnd]
          omega
      | endS =>
          have h1 : (1 : Int) ≤ a := by
            have h := hpre [SessionOp.endS] rest rfl
            simp [countEnd, countReg] at h
            omega
          have hmax : max 0 (a - 1) = a - 1 := max_eq_right (by omega)
          have hrest : ∀ pre suf : List SessionOp, rest = pre ++ suf →
              (countEnd pre : Int) ≤ (a - 1) + countReg pre := by
            intro pre suf hsplit
            have h := hpre (SessionOp.endS :: pre) suf (by rw [hsplit]; rfl)
            simp [countEnd, countReg] at h
            omega
          have hrun := ih (a - 1) (by omega) hrest
          show runOps (max 0 (a - 1)) rest = _
          rw [hmax, hrun]
          simp only [countReg, countEnd]
          omega

/-- C7 amended: activeUsers never becomes negative, the disconnect handler
floors the decrement at 0 so a disconnect at 0 leaves 0, and activeUsers
equals registrations minus endings clamped at 0 for every interleaving in
which no prefix has more endings than registrations; when excess endings
precede a later registration the equality can fail. -/
theorem c7_amended_active_users :
    (∀ (ops : List SessionOp) (a : Int), 0 ≤ a → 0 ≤ runOps a ops) ∧
    (∀ ops : List SessionOp,
       runOps 0 (ops ++ [SessionOp.endS]) = max 0 (runOps 0 ops - 1)) ∧
    (∀ ops : List SessionOp, runOps 0 ops = 0 →
       runOps 0 (ops ++ [SessionOp.endS]) = 0) ∧
    (∀ ops : List SessionOp,
       (∀ pre suf : List SessionOp, ops = pre ++ suf → countEnd pre ≤ countReg pre) →
       runOps 0 ops = max 0 ((countReg ops : Int) - countEnd ops)) := by
  have hfloor : ∀ ops : List SessionOp,
      runOps 0 (ops ++ [SessionOp.endS]) = max 0 (runOps 0 ops - 1) := by
    intro ops
    rw [runOps_append]
    rfl
  refine ⟨fun ops a ha => runOps_nonneg ops a ha, hfloor, ?_, ?_⟩
  · intro ops h0
    rw [hfloor, h0]
    rfl
  · intro ops hpre
    have hcast : ∀ pre suf : List SessionOp, ops = pre ++ suf →
        (countEnd pre : Int) ≤ 0 + countReg pre := by
      intro pre suf hsplit
      have := hpre pre suf hsplit
      omega
    have hrun := runOps_counts ops 0 le_rfl hcast
    have hle : countEnd ops ≤ countReg ops :=
      hpre ops [] (List.append_nil ops).symm
    have hmax : max 0 ((countReg ops : Int) - countEnd ops)
        = (countReg ops : Int) - countEnd ops := by
      apply max_eq_right
      omega
    rw [hrun, hmax]
    omega

/-- Witness for C7 amended: a register-then-disconnect pair satisfies the
prefix condition and lands exactly on the clamped difference, and a pure
double-disconnect stays non-negative. -/
theorem c7_witness :
    0 ≤ runOps 0 [SessionOp.endS, SessionOp.endS] ∧
    runOps 0 [SessionOp.register, SessionOp.endS]
      = max 0 ((countReg [SessionOp.register, SessionOp.endS] : Int)
          - countEnd [SessionOp.register, SessionOp.endS]) :=
  ⟨c7_amended_active_users.1 [SessionOp.endS, SessionOp.endS] 0 (by decide),
   c7_amended_active_users.2.2.2 [SessionOp.register, SessionOp.endS]
     (fun pre suf h => by
       rcases pre with _ | ⟨a1, _ | ⟨a2, pre⟩⟩
       · simp [countEnd]
       · simp at h
         rcases h with ⟨h1, h2⟩
         subst h1
         simp [countEnd, countReg]
       · simp at h
         rcases h with ⟨h1, h2, h3⟩
         subst h1
         subst h2
         have : pre = [] := by
           cases pre with
           | nil => rfl
           | cons x xs => simp at h3
         subst this
         simp [countEnd, countReg])⟩

/-- C9 counterexample: the rejection issued by the checkVpn gate on the
gated endpoints is a 403 whose body carries only the error field: no
message and no proxy, vpn, tor details. -/
theorem c9_counterexample :
    checkVpn true req127
      = MwOutcome.reject 403
          { error := "VPN ou Tor detectado. Acesso bloqueado."
            message := none, details := none } ∧
    rejectionDetails (checkVpn true req127) = none ∧
    rejectionMessage (checkVpn true req127) = none := by decide

/-- C9 amended: a suspicious verdict makes VpnDetectionService.middleware
answer 403 with a body carrying error, message and the proxy, vpn and tor
booleans of the verdict, while the checkVpn gate of the gated endpoints
answers 403 with a body carrying only an error string. -/
theorem c9_amended_reject_body :
    (∀ (enabled : Bool) (apiKey : Option String) (exp : Int) (cache : Cache) (now : Int)
        (provider : Except Unit ProviderData) (sim : IpResult) (req : Request) (ip : String),
       reqIp req = some ip → isLocalIp (cleanIpOf ip) = false →
       (checkIp enabled apiKey exp cache now provider sim (cleanIpOf ip)).result.isVpn
         = true →
       (middleware enabled apiKey exp cache now provider sim req).outcome
         = MwOutcome.reject 403
             { error := "Acesso bloqueado"
               message := some blockMessage
               details := some
                 ⟨(checkIp enabled apiKey exp cache now provider sim
                     (cleanIpOf ip)).result.proxy,
                  (checkIp enabled apiKey exp cache now provider sim
                     (cleanIpOf ip)).result.vpn,
                  (checkIp enabled apiKey exp cache now provider sim
                     (cleanIpOf ip)).result.tor⟩ }) ∧
    (∀ (draw : Bool) (req : Request) (s : Nat) (b : RejectBody),
       checkVpn draw req = MwOutcome.reject s b →
       s = 403 ∧ b = { error := "VPN ou Tor detectado. Acesso bloqueado." }) := by
  constructor
  · intro enabled apiKey exp cache now provider sim req ip hip hlocal hvpn
    simp [middleware, middlewareBody, hip, hlocal, hvpn]
  · intro draw req s b h
    cases draw with
    | false => simp [checkVpn] at h
    | true =>
        simp [checkVpn] at h
        exact ⟨h.1.symm, h.2.symm⟩

/-- Witness for C9 amended: a suspicious simulated verdict for a public
address produces the full middleware rejection body. -/
theorem c9_witness :
    (middleware true none 3600000 [] 0 (Except.error ()) vpnResult reqPub).outcome
      = MwOutcome.reject 403
          { error := "Acesso bloqueado", message := some blockMessage,
            details := some ⟨true, true, false⟩ } :=
  c9_amended_reject_body.1 true none 3600000 [] 0 (Except.error ()) vpnResult reqPub
    "203.0.113.9" (by decide) (by decide) (by decide)

end Enigma
